import Mathlib

/-!
Verification of the NND (nearest-neighbor distance) metrics engine of
BioClusterQuant (src/BioClusterQuant.py) against its specification.

The core function `calculate_nnd_metrics_for_cell` receives the 2D
coordinates of the foci detected in one cell/ROI and returns
`(avg_nnd, avg_inv_nnd, n_foci)`, where NaN metric values are modelled as
`Option.none`.  A point set of `n` points is modelled as `p : Fin n → ℝ × ℝ`
(the rows of the `coords` array).  The per-point quantity `distances[:, 1]`
produced by `NearestNeighbors(n_neighbors=2).kneighbors(coords)` is the
second-smallest distance from point `i` to any point (self included at
distance 0), which equals the minimum distance from `i` to any *other*
index; `nndOf` embeds it directly as that minimum.

The batch loop of `process_folder_gui` is embedded as `process_folder`
over a list of (filename, file content) pairs, where the content models the
outcome of `pd.read_csv` and the column checks.
-/

open Finset

/-- `EPSILON = 1e-9`, the floor applied to nearest-neighbor distances before
inversion (src/BioClusterQuant.py line 34). -/
noncomputable def EPSILON : ℝ := 1 / 10 ^ 9

/-- Euclidean distance between two 2D points, as computed by the ball-tree
nearest-neighbor search on the rows of `coords`. -/
noncomputable def dist2 (p q : ℝ × ℝ) : ℝ :=
  Real.sqrt ((p.1 - q.1) ^ 2 + (p.2 - q.2) ^ 2)

/-- The nearest-neighbor distance of point `i`: the minimum of
`dist2 (p i) (p j)` over the other indices `j`.  This is the value
`distances[:, 1][i]` of the source's k-nearest-neighbor query (the
second-smallest distance from `p i` to any row, the smallest being the
distance 0 to itself).  For `n ≤ 1` the index set is empty and the value is
the junk `sInf ∅ = 0`; the caller only uses it when `2 ≤ n`. -/
noncomputable def nndOf {n : ℕ} (p : Fin n → ℝ × ℝ) (i : Fin n) : ℝ :=
  sInf (((univ.erase i).image fun j => dist2 (p i) (p j) : Finset ℝ) : Set ℝ)

/-- The result record of `calculate_nnd_metrics_for_cell`:
`(average_nnd, average_inverse_nnd, num_foci)`, with NaN modelled as
`none`. -/
structure NNDResult where
  avgNND : Option ℝ
  avgInverseNND : Option ℝ
  count : ℕ

/-- The body of `calculate_nnd_metrics_for_cell` parameterized by the outcome
of the nearest-neighbor search inside the `try` block: `some ds` is a
successful search returning the per-point distances `distances[:, 1]`,
`none` is the `except` path, which keeps both metrics at their NaN
initialisation while still reporting `n_foci`. -/
noncomputable def calc_with_search (n : ℕ) (search : Option (Fin n → ℝ)) : NNDResult :=
  if n = 1 then
    ⟨none, none, 1⟩
  else if 2 ≤ n then
    match search with
    | some ds =>
        ⟨some ((∑ i, ds i) / n), some ((∑ i, 1 / max (ds i) EPSILON) / n), n⟩
    | none => ⟨none, none, n⟩
  else
    ⟨none, none, 0⟩

/-- `calculate_nnd_metrics_for_cell` (src/BioClusterQuant.py lines 43-74):
branches on the number of foci and, for `n ≥ 2`, averages the per-point
nearest-neighbor distances and their `EPSILON`-clamped inverses.  In the
real-number model the nearest-neighbor search always succeeds, so the
search outcome is `some (nndOf p)`. -/
noncomputable def calculate_nnd_metrics_for_cell (n : ℕ) (p : Fin n → ℝ × ℝ) : NNDResult :=
  calc_with_search n (some fun i => nndOf p i)

/-- The specification's characterisation of a per-point nearest-neighbor
distance: `d` is the Euclidean distance from point `i` to some other point,
and no other point is closer. -/
def IsNND {n : ℕ} (p : Fin n → ℝ × ℝ) (i : Fin n) (d : ℝ) : Prop :=
  (∃ j, j ≠ i ∧ d = dist2 (p i) (p j)) ∧ ∀ j, j ≠ i → d ≤ dist2 (p i) (p j)

/- ### Basic facts about `dist2` and `nndOf` -/

theorem dist2_nonneg (p q : ℝ × ℝ) : 0 ≤ dist2 p q :=
  Real.sqrt_nonneg _

theorem dist2_comm (p q : ℝ × ℝ) : dist2 p q = dist2 q p := by
  unfold dist2
  ring_nf

theorem dist2_self (p : ℝ × ℝ) : dist2 p p = 0 := by
  simp [dist2]

/-- For `n ≥ 2` the erased index set is nonempty, hence so is the distance
image. -/
theorem nnd_image_nonempty {n : ℕ} (hn : 2 ≤ n) (p : Fin n → ℝ × ℝ) (i : Fin n) :
    ((univ.erase i).image fun j => dist2 (p i) (p j)).Nonempty := by
  obtain ⟨j, hj, hji⟩ := Finset.exists_ne_of_one_lt_card
    (s := (univ : Finset (Fin n))) (by simpa using hn) i
  exact ⟨dist2 (p i) (p j), Finset.mem_image.2 ⟨j, Finset.mem_erase.2 ⟨hji, hj⟩, rfl⟩⟩

/-- For `n ≥ 2`, `nndOf p i` is attained at some other point and is a lower
bound on the distances to all other points. -/
theorem isNND_nndOf {n : ℕ} (hn : 2 ≤ n) (p : Fin n → ℝ × ℝ) (i : Fin n) :
    IsNND p i (nndOf p i) := by
  have hne := nnd_image_nonempty hn p i
  have hmin : nndOf p i = ((univ.erase i).image fun j => dist2 (p i) (p j)).min' hne := by
    unfold nndOf
    exact hne.csInf_eq_min'
  constructor
  · have hmem := Finset.min'_mem _ hne
    rw [← hmin] at hmem
    obtain ⟨j, hj, hjd⟩ := Finset.mem_image.1 hmem
    exact ⟨j, (Finset.mem_erase.1 hj).1, hjd.symm⟩
  · intro j hj
    rw [hmin]
    exact Finset.min'_le _ _ (Finset.mem_image.2 ⟨j, Finset.mem_erase.2 ⟨hj, Finset.mem_univ j⟩, rfl⟩)

/-- A point has exactly one nearest-neighbor distance value. -/
theorem isNND_unique {n : ℕ} {p : Fin n → ℝ × ℝ} {i : Fin n} {d d' : ℝ}
    (h : IsNND p i d) (h' : IsNND p i d') : d = d' := by
  obtain ⟨⟨j, hj, hjd⟩, hlb⟩ := h
  obtain ⟨⟨k, hk, hkd⟩, hlb'⟩ := h'
  have h1 : d ≤ d' := hkd ▸ hlb k hk
  have h2 : d' ≤ d := hjd ▸ hlb' j hj
  exact le_antisymm h1 h2

theorem nndOf_nonneg {n : ℕ} (hn : 2 ≤ n) (p : Fin n → ℝ × ℝ) (i : Fin n) :
    0 ≤ nndOf p i := by
  obtain ⟨⟨j, _, hjd⟩, _⟩ := isNND_nndOf hn p i
  exact hjd ▸ dist2_nonneg _ _

theorem EPSILON_pos : 0 < EPSILON := by
  unfold EPSILON; norm_num

/-- For a two-point set, each point's nearest-neighbor distance is the
distance to the one other point. -/
theorem nndOf_two_zero (p : Fin 2 → ℝ × ℝ) : nndOf p 0 = dist2 (p 0) (p 1) := by
  unfold nndOf
  have h : (univ.erase (0 : Fin 2)) = {1} := by decide
  rw [h, Finset.image_singleton, Finset.coe_singleton, csInf_singleton]

theorem nndOf_two_one (p : Fin 2 → ℝ × ℝ) : nndOf p 1 = dist2 (p 1) (p 0) := by
  unfold nndOf
  have h : (univ.erase (1 : Fin 2)) = {0} := by decide
  rw [h, Finset.image_singleton, Finset.coe_singleton, csInf_singleton]

/- ### Claims -/

/-- C1: for every point set with `count ≥ 2`, `calculate_nnd_metrics_for_cell`
returns `avgNND` equal to the mean of the per-point distances to the nearest
other point, `avgInverseNND` equal to the mean of `1 / max (d i) EPSILON`,
and `count` equal to the exact number of points. -/
theorem nnd_metrics_correct (n : ℕ) (p : Fin n → ℝ × ℝ) (hn : 2 ≤ n) :
    ∃ d : Fin n → ℝ, (∀ i, IsNND p i (d i)) ∧
      calculate_nnd_metrics_for_cell n p =
        ⟨some ((∑ i, d i) / n), some ((∑ i, 1 / max (d i) EPSILON) / n), n⟩ := by
  refine ⟨fun i => nndOf p i, fun i => isNND_nndOf hn p i, ?_⟩
  have h1 : n ≠ 1 := by omega
  simp [calculate_nnd_metrics_for_cell, calc_with_search, h1, hn]

/-- Witness for C1: the two-point set `{(0,0), (3,4)}` satisfies the premise
and the conclusion. -/
theorem nnd_metrics_correct_witness :
    ∃ d : Fin 2 → ℝ,
      (∀ i, IsNND (fun i : Fin 2 => if i = 0 then ((0 : ℝ), (0 : ℝ)) else (3, 4)) i (d i)) ∧
      calculate_nnd_metrics_for_cell 2
          (fun i : Fin 2 => if i = 0 then ((0 : ℝ), (0 : ℝ)) else (3, 4)) =
        ⟨some ((∑ i, d i) / 2), some ((∑ i, 1 / max (d i) EPSILON) / 2), 2⟩ :=
  nnd_metrics_correct 2 _ (by norm_num)

/-- C2: for point sets with 0 or 1 points, both metrics are undefined, the
count is reported exactly, and no computation is attempted (the function is
total). -/
theorem nnd_metrics_degenerate (n : ℕ) (p : Fin n → ℝ × ℝ) (h : n ≤ 1) :
    calculate_nnd_metrics_for_cell n p = ⟨none, none, n⟩ := by
  rcases Nat.le_one_iff_eq_zero_or_eq_one.1 h with rfl | rfl <;>
    simp [calculate_nnd_metrics_for_cell, calc_with_search]

/-- Witness for C2: concrete empty and singleton point sets. -/
theorem nnd_metrics_degenerate_witness :
    calculate_nnd_metrics_for_cell 0 (fun _ => ((0 : ℝ), (0 : ℝ))) = ⟨none, none, 0⟩ ∧
    calculate_nnd_metrics_for_cell 1 (fun _ => ((5 : ℝ), (7 : ℝ))) = ⟨none, none, 1⟩ :=
  ⟨nnd_metrics_degenerate 0 _ (by norm_num), nnd_metrics_degenerate 1 _ (by norm_num)⟩

/-- C3: the calculator is a total function: for every outcome of the internal
nearest-neighbor search it returns a result whose `count` is exact, and when
the search fails (the `except` path) both metrics are undefined while the
count is still reported. -/
theorem nnd_metrics_total (n : ℕ) (search : Option (Fin n → ℝ)) :
    (calc_with_search n search).count = n ∧
      (search = none → calc_with_search n search = ⟨none, none, n⟩) := by
  unfold calc_with_search
  rcases search with _ | ds
  · split_ifs with h1 h2 <;> simp <;> omega
  · split_ifs with h1 h2 <;> simp <;> omega

/-- Full evaluation of the calculator on a two-point set: both points have
the same nearest-neighbor distance `d = dist2 (p 0) (p 1)`, so the means
collapse to `d` and `1 / max d EPSILON`. -/
theorem calc_two (p : Fin 2 → ℝ × ℝ) :
    calculate_nnd_metrics_for_cell 2 p =
      ⟨some (dist2 (p 0) (p 1)), some (1 / max (dist2 (p 0) (p 1)) EPSILON), 2⟩ := by
  have h0 := nndOf_two_zero p
  have h1 := nndOf_two_one p
  have hc := dist2_comm (p 1) (p 0)
  have e1 : (dist2 (p 0) (p 1) + dist2 (p 0) (p 1)) / ((2 : ℕ) : ℝ) = dist2 (p 0) (p 1) := by
    push_cast; ring
  have e2 : (1 / max (dist2 (p 0) (p 1)) EPSILON + 1 / max (dist2 (p 0) (p 1)) EPSILON) /
      ((2 : ℕ) : ℝ) = 1 / max (dist2 (p 0) (p 1)) EPSILON := by
    push_cast; ring
  simp only [calculate_nnd_metrics_for_cell, calc_with_search, Fin.sum_univ_two, h0, h1, hc]
  norm_num [e1, e2]

/-- C4 counterexample: two points at distance `d = 1e-10 > 0`; the claim
asserts `avgInverseNND == 1/d = 1e10`, but the `EPSILON` clamp makes the
code return `1/EPSILON = 1e9` instead. -/
theorem two_points_inverse_counterexample :
    dist2 ((0 : ℝ), (0 : ℝ)) ((1 / 10 ^ 10 : ℝ), 0) = 1 / 10 ^ 10 ∧
    (0 : ℝ) < 1 / 10 ^ 10 ∧
    (calculate_nnd_metrics_for_cell 2
        (fun i : Fin 2 => if i = 0 then ((0 : ℝ), (0 : ℝ)) else (1 / 10 ^ 10, 0))).avgInverseNND
      ≠ some (1 / (1 / 10 ^ 10 : ℝ)) := by
  have hd : dist2 ((0 : ℝ), (0 : ℝ)) ((1 / 10 ^ 10 : ℝ), 0) = 1 / 10 ^ 10 := by
    unfold dist2
    rw [show ((0 : ℝ) - 1 / 10 ^ 10) ^ 2 + ((0 : ℝ) - 0) ^ 2 = (1 / 10 ^ 10) ^ 2 by ring]
    exact Real.sqrt_sq (by norm_num)
  refine ⟨hd, by norm_num, ?_⟩
  have hmax : max (dist2 ((0 : ℝ), (0 : ℝ)) ((1 / 10 ^ 10 : ℝ), 0)) EPSILON = EPSILON :=
    max_eq_right (by rw [hd]; unfold EPSILON; norm_num)
  rw [calc_two]
  show some (1 / max (dist2 ((0 : ℝ), (0 : ℝ)) ((1 / 10 ^ 10 : ℝ), 0)) EPSILON)
      ≠ some (1 / (1 / 10 ^ 10 : ℝ))
  rw [hmax]
  intro hcontra
  have h2 := Option.some_injective ℝ hcontra
  rw [show (1 : ℝ) / EPSILON = 10 ^ 9 by unfold EPSILON; norm_num] at h2
  norm_num at h2

/-- C4 amended: for two points at distance `d > 0`, `avgNND = d` and
`avgInverseNND = 1 / max d EPSILON`; in particular `avgInverseNND = 1/d`
whenever `d ≥ EPSILON`. -/
theorem two_points_metrics (p : Fin 2 → ℝ × ℝ) (h : 0 < dist2 (p 0) (p 1)) :
    (calculate_nnd_metrics_for_cell 2 p).avgNND = some (dist2 (p 0) (p 1)) ∧
    (calculate_nnd_metrics_for_cell 2 p).avgInverseNND
      = some (1 / max (dist2 (p 0) (p 1)) EPSILON) ∧
    (EPSILON ≤ dist2 (p 0) (p 1) →
      (calculate_nnd_metrics_for_cell 2 p).avgInverseNND
        = some (1 / dist2 (p 0) (p 1))) := by
  rw [calc_two p]
  refine ⟨rfl, rfl, fun he => ?_⟩
  rw [max_eq_left he]

/-- Witness for the amended C4: the points `(0,0)` and `(3,4)` at distance
`5`. -/
theorem two_points_metrics_witness :
    (calculate_nnd_metrics_for_cell 2
        (fun i : Fin 2 => if i = 0 then ((0 : ℝ), (0 : ℝ)) else (3, 4))).avgNND
      = some (dist2 ((fun i : Fin 2 => if i = 0 then ((0 : ℝ), (0 : ℝ)) else (3, 4)) 0)
          ((fun i : Fin 2 => if i = 0 then ((0 : ℝ), (0 : ℝ)) else (3, 4)) 1)) ∧
    (calculate_nnd_metrics_for_cell 2
        (fun i : Fin 2 => if i = 0 then ((0 : ℝ), (0 : ℝ)) else (3, 4))).avgInverseNND
      = some (1 / max (dist2 ((fun i : Fin 2 => if i = 0 then ((0 : ℝ), (0 : ℝ)) else (3, 4)) 0)
          ((fun i : Fin 2 => if i = 0 then ((0 : ℝ), (0 : ℝ)) else (3, 4)) 1)) EPSILON) ∧
    (EPSILON ≤ dist2 ((fun i : Fin 2 => if i = 0 then ((0 : ℝ), (0 : ℝ)) else (3, 4)) 0)
          ((fun i : Fin 2 => if i = 0 then ((0 : ℝ), (0 : ℝ)) else (3, 4)) 1) →
      (calculate_nnd_metrics_for_cell 2
          (fun i : Fin 2 => if i = 0 then ((0 : ℝ), (0 : ℝ)) else (3, 4))).avgInverseNND
        = some (1 / dist2 ((fun i : Fin 2 => if i = 0 then ((0 : ℝ), (0 : ℝ)) else (3, 4)) 0)
            ((fun i : Fin 2 => if i = 0 then ((0 : ℝ), (0 : ℝ)) else (3, 4)) 1))) :=
  two_points_metrics _ (by
    show (0 : ℝ) < dist2 ((0 : ℝ), (0 : ℝ)) ((3 : ℝ), (4 : ℝ))
    unfold dist2
    exact Real.sqrt_pos.2 (by norm_num))

/-- C5: two coincident points give `avgInverseNND = 1/EPSILON = 1e9`, a
defined finite value. -/
theorem coincident_two_points (p : Fin 2 → ℝ × ℝ) (h : p 0 = p 1) :
    (calculate_nnd_metrics_for_cell 2 p).avgInverseNND = some (10 ^ 9) ∧
    (1 : ℝ) / EPSILON = 10 ^ 9 := by
  have hd : dist2 (p 0) (p 1) = 0 := by rw [h, dist2_self]
  have he : (1 : ℝ) / EPSILON = 10 ^ 9 := by unfold EPSILON; norm_num
  rw [calc_two p]
  refine ⟨?_, he⟩
  simp only [hd, max_eq_right EPSILON_pos.le, he]

/-- Witness for C5: the duplicated point `(2,3)`. -/
theorem coincident_two_points_witness :
    (calculate_nnd_metrics_for_cell 2 (fun _ : Fin 2 => ((2 : ℝ), (3 : ℝ)))).avgInverseNND
      = some (10 ^ 9) ∧ (1 : ℝ) / EPSILON = 10 ^ 9 :=
  coincident_two_points _ rfl

/-- Permuting the indices permutes the per-point nearest-neighbor
distances. -/
theorem nndOf_comp_perm {n : ℕ} (p : Fin n → ℝ × ℝ) (σ : Equiv.Perm (Fin n)) (i : Fin n) :
    nndOf (p ∘ σ) i = nndOf p (σ i) := by
  unfold nndOf
  have himg : ((univ.erase i).image fun j => dist2 (p (σ i)) (p (σ j)))
      = ((univ.erase (σ i)).image fun k => dist2 (p (σ i)) (p k)) := by
    rw [show (fun j => dist2 (p (σ i)) (p (σ j)))
        = (fun k => dist2 (p (σ i)) (p k)) ∘ σ from rfl]
    rw [← Finset.image_image, Finset.image_erase σ.injective, Finset.image_univ_equiv]
  simp only [Function.comp_apply]
  rw [himg]

/-- C7: permuting the input point order changes neither metric nor the
count. -/
theorem nnd_metrics_perm_invariant (n : ℕ) (p : Fin n → ℝ × ℝ) (σ : Equiv.Perm (Fin n)) :
    calculate_nnd_metrics_for_cell n (p ∘ σ) = calculate_nnd_metrics_for_cell n p := by
  rcases le_or_lt 2 n with hn | hn
  · have hs1 : ∑ i, nndOf (p ∘ σ) i = ∑ i, nndOf p i := by
      calc ∑ i, nndOf (p ∘ σ) i = ∑ i, nndOf p (σ i) :=
            Finset.sum_congr rfl fun i _ => nndOf_comp_perm p σ i
        _ = ∑ i, nndOf p i := Equiv.sum_comp σ _
    have hs2 : ∑ i, 1 / max (nndOf (p ∘ σ) i) EPSILON
        = ∑ i, 1 / max (nndOf p i) EPSILON := by
      calc ∑ i, 1 / max (nndOf (p ∘ σ) i) EPSILON
            = ∑ i, 1 / max (nndOf p (σ i)) EPSILON :=
            Finset.sum_congr rfl fun i _ => by rw [nndOf_comp_perm p σ i]
        _ = ∑ i, 1 / max (nndOf p i) EPSILON :=
            Equiv.sum_comp σ fun k => 1 / max (nndOf p k) EPSILON
    simp only [calculate_nnd_metrics_for_cell, calc_with_search, hs1, hs2]
  · rw [nnd_metrics_degenerate n (p ∘ σ) (by omega), nnd_metrics_degenerate n p (by omega)]

/-- C9: for `n ≥ 2` the returned `avgNND` is non-negative and
`avgInverseNND` lies in `(0, 1e9]`: the `EPSILON` clamp bounds every
per-point inverse distance by `1/EPSILON = 1e9`. -/
theorem nnd_metrics_bounds (n : ℕ) (p : Fin n → ℝ × ℝ) (hn : 2 ≤ n) :
    ∃ a b : ℝ, calculate_nnd_metrics_for_cell n p = ⟨some a, some b, n⟩ ∧
      0 ≤ a ∧ 0 < b ∧ b ≤ 10 ^ 9 := by
  have h1 : n ≠ 1 := by omega
  have hnR : (0 : ℝ) < n := by exact_mod_cast (by omega : 0 < n)
  refine ⟨(∑ i, nndOf p i) / n, (∑ i, 1 / max (nndOf p i) EPSILON) / n, ?_, ?_, ?_, ?_⟩
  · simp [calculate_nnd_metrics_for_cell, calc_with_search, h1, hn]
  · exact div_nonneg (Finset.sum_nonneg fun i _ => nndOf_nonneg hn p i) hnR.le
  · refine div_pos (Finset.sum_pos (fun i _ => ?_) ?_) hnR
    · exact div_pos one_pos (lt_of_lt_of_le EPSILON_pos (le_max_right _ _))
    · exact ⟨⟨0, by omega⟩, Finset.mem_univ _⟩
  · rw [div_le_iff₀ hnR]
    calc ∑ i, 1 / max (nndOf p i) EPSILON
        ≤ ∑ _i : Fin n, (10 : ℝ) ^ 9 := by
          refine Finset.sum_le_sum fun i _ => ?_
          have h2 := one_div_le_one_div_of_le EPSILON_pos (le_max_right (nndOf p i) EPSILON)
          calc 1 / max (nndOf p i) EPSILON ≤ 1 / EPSILON := h2
            _ = 10 ^ 9 := by unfold EPSILON; norm_num
      _ = (n : ℝ) * 10 ^ 9 := by
          rw [Finset.sum_const, Finset.card_univ, Fintype.card_fin, nsmul_eq_mul]
      _ = 10 ^ 9 * n := by ring

/-- Witness for C9: the two-point set `{(0,0), (3,4)}`. -/
theorem nnd_metrics_bounds_witness :
    ∃ a b : ℝ,
      calculate_nnd_metrics_for_cell 2
          (fun i : Fin 2 => if i = 0 then ((0 : ℝ), (0 : ℝ)) else (3, 4)) = ⟨some a, some b, 2⟩ ∧
      0 ≤ a ∧ 0 < b ∧ b ≤ 10 ^ 9 :=
  nnd_metrics_bounds 2 _ (by norm_num)

/-- Scaling every point toward a common center `c` by a factor `t`: the
spec's cluster-tightening transformation on the input point set. -/
noncomputable def scalePoints {n : ℕ} (c : ℝ × ℝ) (t : ℝ) (p : Fin n → ℝ × ℝ) :
    Fin n → ℝ × ℝ :=
  fun i => (c.1 + t * ((p i).1 - c.1), c.2 + t * ((p i).2 - c.2))

/-- Scaling toward a center by a non-negative factor scales every pairwise
distance by that factor. -/
theorem dist2_scale (c : ℝ × ℝ) (t : ℝ) (ht : 0 ≤ t) (p q : ℝ × ℝ) :
    dist2 (c.1 + t * (p.1 - c.1), c.2 + t * (p.2 - c.2))
      (c.1 + t * (q.1 - c.1), c.2 + t * (q.2 - c.2)) = t * dist2 p q := by
  unfold dist2
  rw [show (c.1 + t * (p.1 - c.1) - (c.1 + t * (q.1 - c.1))) ^ 2
      + (c.2 + t * (p.2 - c.2) - (c.2 + t * (q.2 - c.2))) ^ 2
      = t ^ 2 * ((p.1 - q.1) ^ 2 + (p.2 - q.2) ^ 2) by ring]
  rw [Real.sqrt_mul (sq_nonneg t), Real.sqrt_sq ht]

/-- Scaling toward a center by a non-negative factor scales every per-point
nearest-neighbor distance by that factor. -/
theorem nndOf_scale {n : ℕ} (hn : 2 ≤ n) (c : ℝ × ℝ) (t : ℝ) (ht : 0 ≤ t)
    (p : Fin n → ℝ × ℝ) (i : Fin n) :
    nndOf (scalePoints c t p) i = t * nndOf p i := by
  refine isNND_unique (isNND_nndOf hn _ i) ?_
  obtain ⟨⟨j, hj, hjd⟩, hlb⟩ := isNND_nndOf hn p i
  constructor
  · refine ⟨j, hj, ?_⟩
    simp only [scalePoints]
    rw [dist2_scale c t ht, hjd]
  · intro k hk
    simp only [scalePoints]
    rw [dist2_scale c t ht]
    exact mul_le_mul_of_nonneg_left (hlb k hk) ht

/-- C6 counterexample: two coincident points (all nearest-neighbor
distances are 0) scaled toward the origin by `t = 1/2` yield exactly the
same result record — `avgNND` does not strictly decrease and
`avgInverseNND` does not strictly increase. -/
theorem scaling_counterexample :
    (0 : ℝ) < 1 / 2 ∧ (1 / 2 : ℝ) < 1 ∧
    calculate_nnd_metrics_for_cell 2
        (scalePoints ((0 : ℝ), (0 : ℝ)) (1 / 2) (fun _ : Fin 2 => ((0 : ℝ), (0 : ℝ))))
      = calculate_nnd_metrics_for_cell 2 (fun _ : Fin 2 => ((0 : ℝ), (0 : ℝ))) := by
  refine ⟨by norm_num, by norm_num, ?_⟩
  have hfix : scalePoints ((0 : ℝ), (0 : ℝ)) (1 / 2) (fun _ : Fin 2 => ((0 : ℝ), (0 : ℝ)))
      = (fun _ : Fin 2 => ((0 : ℝ), (0 : ℝ))) := by
    funext i
    unfold scalePoints
    norm_num
  rw [hfix]

/-- C6 amended: scaling a point set with `count ≥ 2` toward a common center
by a factor `0 < t < 1` strictly decreases `avgNND` and strictly increases
`avgInverseNND`, provided at least one point's nearest-neighbor distance
exceeds `EPSILON` (for sets whose nearest distances are all at most
`EPSILON` — e.g. all points coincident — the clamped metrics need not move
strictly). -/
theorem scaling_tightens_metrics (n : ℕ) (p : Fin n → ℝ × ℝ) (c : ℝ × ℝ) (t : ℝ)
    (hn : 2 ≤ n) (ht0 : 0 < t) (ht1 : t < 1) (hbig : ∃ i, EPSILON < nndOf p i) :
    ∃ a b a' b' : ℝ,
      calculate_nnd_metrics_for_cell n p = ⟨some a, some b, n⟩ ∧
      calculate_nnd_metrics_for_cell n (scalePoints c t p) = ⟨some a', some b', n⟩ ∧
      a' < a ∧ b < b' := by
  have h1 : n ≠ 1 := by omega
  have hnR : (0 : ℝ) < n := by exact_mod_cast (by omega : 0 < n)
  obtain ⟨i0, hi0⟩ := hbig
  have hscale : ∀ i, nndOf (scalePoints c t p) i = t * nndOf p i :=
    nndOf_scale hn c t ht0.le p
  refine ⟨(∑ i, nndOf p i) / n, (∑ i, 1 / max (nndOf p i) EPSILON) / n,
    (∑ i, nndOf (scalePoints c t p) i) / n,
    (∑ i, 1 / max (nndOf (scalePoints c t p) i) EPSILON) / n,
    by simp [calculate_nnd_metrics_for_cell, calc_with_search, h1, hn],
    by simp [calculate_nnd_metrics_for_cell, calc_with_search, h1, hn], ?_, ?_⟩
  · rw [div_lt_div_iff_of_pos_right hnR]
    refine Finset.sum_lt_sum (fun i _ => ?_) ⟨i0, Finset.mem_univ i0, ?_⟩
    · rw [hscale i]
      exact mul_le_of_le_one_left (nndOf_nonneg hn p i) ht1.le
    · rw [hscale i0]
      have hpos : 0 < nndOf p i0 := lt_trans EPSILON_pos hi0
      calc t * nndOf p i0 < 1 * nndOf p i0 := by
            exact mul_lt_mul_of_pos_right ht1 hpos
        _ = nndOf p i0 := one_mul _
  · rw [div_lt_div_iff_of_pos_right hnR]
    refine Finset.sum_lt_sum (fun i _ => ?_) ⟨i0, Finset.mem_univ i0, ?_⟩
    · rw [hscale i]
      refine one_div_le_one_div_of_le (lt_of_lt_of_le EPSILON_pos (le_max_right _ _)) ?_
      exact max_le_max (mul_le_of_le_one_left (nndOf_nonneg hn p i) ht1.le) le_rfl
    · rw [hscale i0]
      refine one_div_lt_one_div_of_lt (lt_of_lt_of_le EPSILON_pos (le_max_right _ _)) ?_
      have hpos : 0 < nndOf p i0 := lt_trans EPSILON_pos hi0
      rw [max_eq_left hi0.le]
      refine max_lt ?_ hi0
      calc t * nndOf p i0 < 1 * nndOf p i0 := mul_lt_mul_of_pos_right ht1 hpos
        _ = nndOf p i0 := one_mul _

/-- Witness for the amended C6: the points `(0,0)` and `(1,0)` scaled toward
the origin by `t = 1/2`. -/
theorem scaling_tightens_metrics_witness :
    ∃ a b a' b' : ℝ,
      calculate_nnd_metrics_for_cell 2
          (fun i : Fin 2 => if i = 0 then ((0 : ℝ), (0 : ℝ)) else (1, 0))
        = ⟨some a, some b, 2⟩ ∧
      calculate_nnd_metrics_for_cell 2
          (scalePoints ((0 : ℝ), (0 : ℝ)) (1 / 2)
            (fun i : Fin 2 => if i = 0 then ((0 : ℝ), (0 : ℝ)) else (1, 0)))
        = ⟨some a', some b', 2⟩ ∧
      a' < a ∧ b < b' := by
  refine scaling_tightens_metrics 2 _ _ _ (by norm_num) (by norm_num) (by norm_num) ⟨0, ?_⟩
  rw [nndOf_two_zero]
  show EPSILON < dist2 ((0 : ℝ), (0 : ℝ)) ((1 : ℝ), (0 : ℝ))
  unfold dist2 EPSILON
  rw [show ((0 : ℝ) - 1) ^ 2 + ((0 : ℝ) - 0) ^ 2 = 1 by ring, Real.sqrt_one]
  norm_num

/-- Witness for C3: a failed search over three points. -/
theorem nnd_metrics_total_witness :
    (calc_with_search 3 none).count = 3 ∧
      ((none : Option (Fin 3 → ℝ)) = none →
        calc_with_search 3 (none : Option (Fin 3 → ℝ)) = ⟨none, none, 3⟩) :=
  nnd_metrics_total 3 none

/- ### Batch orchestrator (`process_folder_gui`) -/

/-- Python's `str.startswith`: the characters of `pre` are an initial
segment of the characters of `s`. -/
def startswith (s pre : String) : Bool :=
  pre.toList.isPrefixOf s.toList

/-- `Path(filepath).stem`: the filename without its final extension. -/
def stem (name : String) : String :=
  let parts := name.splitOn "."
  if parts.length ≤ 1 then name else String.intercalate "." parts.dropLast

/-- The outcome of reading and structurally validating one input CSV file:
`emptyFile` is `pd.errors.EmptyDataError`, `parseError` is any other
exception raised while handling the file, `missingXY` is a file lacking the
`X` or `Y` column, and `table lbl pts` is a well-formed file with optional
label `lbl` (from the first row of the `Label` column when present and
nonempty) and coordinate rows `pts`. -/
inductive FileContent where
  | emptyFile : FileContent
  | missingXY : FileContent
  | parseError : FileContent
  | table : Option String → List (ℝ × ℝ) → FileContent

/-- One row appended to `all_results`. -/
structure Row where
  identifier : String
  label : String
  avg_nnd : Option ℝ
  avg_inv_nnd : Option ℝ
  num_foci : Int

/-- The body of the per-file loop of `process_folder_gui`
(src/BioClusterQuant.py lines 120-198): files whose name starts with
`NND_Summary_Results_` are skipped before any processing; an
`EmptyDataError` yields an `Empty File` row with 0 foci; any other
exception yields a `Processing Error` row with the sentinel `-1`; a file
missing the coordinate columns is skipped; otherwise the calculator's
result is recorded. `none` means no row is appended. -/
noncomputable def processFile (filename : String) (c : FileContent) : Option Row :=
  if startswith filename "NND_Summary_Results_" then
    none
  else
    match c with
    | FileContent.emptyFile => some ⟨stem filename, "Empty File", none, none, 0⟩
    | FileContent.parseError => some ⟨stem filename, "Processing Error", none, none, -1⟩
    | FileContent.missingXY => none
    | FileContent.table lbl pts =>
        let r := calculate_nnd_metrics_for_cell pts.length fun i => pts.get i
        some ⟨stem filename, lbl.getD "N/A", r.avgNND, r.avgInverseNND, (r.count : Int)⟩

/-- The whole batch loop: the summary rows produced from the (sorted) list
of discovered CSV files. -/
noncomputable def process_folder (files : List (String × FileContent)) : List Row :=
  files.filterMap fun f => processFile f.1 f.2

/-- Whether a file contributes to `processed_count`: the increment is
reached only for non-skipped files that parse and have both coordinate
columns. -/
def countsAsProcessed (f : String × FileContent) : Bool :=
  !(startswith f.1 "NND_Summary_Results_") &&
    (match f.2 with
     | FileContent.table _ _ => true
     | _ => false)

/-- `processed_count` at the end of the loop. -/
def processedCount (files : List (String × FileContent)) : ℕ :=
  (files.filter countsAsProcessed).length

/-- C8: a unit whose processing raises a fault is recorded as a sentinel
row with `NumFoci = -1`; the batch is not aborted (the rows of all other
units, before and after it, are unchanged); a legitimate zero-point unit is
recorded with `NumFoci = 0`, distinct from `-1`. -/
theorem batch_fault_sentinel (xs ys : List (String × FileContent)) (name : String)
    (h : startswith name "NND_Summary_Results_" = false) :
    process_folder (xs ++ (name, FileContent.parseError) :: ys)
      = process_folder xs
        ++ ⟨stem name, "Processing Error", none, none, -1⟩ :: process_folder ys
    ∧ (∀ lbl, processFile name (FileContent.table lbl [])
        = some ⟨stem name, lbl.getD "N/A", none, none, 0⟩)
    ∧ (-1 : Int) ≠ 0 := by
  refine ⟨?_, ?_, by norm_num⟩
  · unfold process_folder
    rw [List.filterMap_append, List.filterMap_cons]
    simp [processFile, h]
  · intro lbl
    simp [processFile, h, calculate_nnd_metrics_for_cell, calc_with_search]

/-- Witness for C8: a faulting file between two good ones. -/
theorem batch_fault_sentinel_witness :
    process_folder ([("a.csv", FileContent.table none [])]
        ++ ("bad.csv", FileContent.parseError) :: [("b.csv", FileContent.emptyFile)])
      = process_folder [("a.csv", FileContent.table none [])]
        ++ ⟨stem "bad.csv", "Processing Error", none, none, -1⟩
          :: process_folder [("b.csv", FileContent.emptyFile)]
    ∧ (∀ lbl, processFile "bad.csv" (FileContent.table lbl [])
        = some ⟨stem "bad.csv", lbl.getD "N/A", none, none, 0⟩)
    ∧ (-1 : Int) ≠ 0 :=
  batch_fault_sentinel _ _ "bad.csv" (by decide)

/-- C10: a CSV file whose name starts with `NND_Summary_Results_` (the
output of a previous run) is skipped entirely: it produces no summary row
and is not counted as a processed unit. -/
theorem summary_files_skipped (xs ys : List (String × FileContent)) (name : String)
    (c : FileContent) (h : startswith name "NND_Summary_Results_" = true) :
    process_folder (xs ++ (name, c) :: ys) = process_folder (xs ++ ys)
    ∧ processedCount (xs ++ (name, c) :: ys) = processedCount (xs ++ ys) := by
  constructor
  · unfold process_folder
    rw [List.filterMap_append, List.filterMap_append, List.filterMap_cons]
    simp [processFile, h]
  · unfold processedCount
    rw [List.filter_append, List.filter_append, List.filter_cons]
    simp [countsAsProcessed, h]

/-- Witness for C10: a previous run's output file amid two input files. -/
theorem summary_files_skipped_witness :
    process_folder ([("a.csv", FileContent.table none [])]
        ++ ("NND_Summary_Results_20250417_120000.csv", FileContent.parseError)
          :: [("b.csv", FileContent.emptyFile)])
      = process_folder ([("a.csv", FileContent.table none [])]
          ++ [("b.csv", FileContent.emptyFile)])
    ∧ processedCount ([("a.csv", FileContent.table none [])]
        ++ ("NND_Summary_Results_20250417_120000.csv", FileContent.parseError)
          :: [("b.csv", FileContent.emptyFile)])
      = processedCount ([("a.csv", FileContent.table none [])]
          ++ [("b.csv", FileContent.emptyFile)]) :=
  summary_files_skipped _ _ _ _ (by decide)
